import Mathlib

/-!
Shallow embedding of the flowy-sys command stream dispatcher
(src/rust-lib/flowy-sys/src/stream.rs) and proofs about its dispatch
protocol.  Asynchrony is collapsed: every future is modelled by its
resolved value, and a Rust panic (an unwrap of None) is modelled by an
Option-valued operation returning none.
-/

namespace FlowySys

/-- Modelled from the spec: the event-kind identifier (module.rs, absent from src);
the discriminator used to select which Module handles a request. -/
abbrev Event : Type := String

/-- Modelled from the spec: an Event Request identifies (event-kind, request-id,
request payload) (request.rs EventRequest is absent from src). -/
structure EventRequest where
  event : Event
  id : String
  payload : String
  deriving DecidableEq, Repr

/-- Accessor get_event, as used by stream.rs. -/
def EventRequest.get_event (r : EventRequest) : Event := r.event

/-- Accessor get_id, as used by stream.rs. -/
def EventRequest.get_id (r : EventRequest) : String := r.id

/-- Modelled from the spec: the Event Response, opaque to the dispatcher
(response.rs is absent from src). -/
structure EventResponse where
  payload : String
  deriving DecidableEq, Repr

/-- Modelled from the spec: SystemError (error.rs is absent from src); the only
variant stream.rs constructs is an InternalError wrapping a message. -/
inductive SystemError where
  | internal (msg : String)
  deriving DecidableEq, Repr

/-- Modelled from the spec: InternalError::new(msg).into() yields a SystemError
carrying the message. -/
def InternalError.new (msg : String) : SystemError := SystemError.internal msg

/-- Modelled from the spec: a Module is a factory: new_service(config) asynchronously
yields a Handler Instance, itself invoked as call(EventRequest) yielding a
Result of EventResponse (module.rs is absent from src).  Futures are collapsed
to their resolved values. -/
structure Module where
  new_service : String → Except SystemError (EventRequest → Except SystemError EventResponse)

/-- Modelled from the spec: the Routing Table, a mapping from event-kind to Module
(system.rs ModuleServiceMap is absent from src). -/
structure ModuleServiceMap where
  entries : List (Event × Module)

/-- Lookup of an event-kind in the Routing Table. -/
def ModuleServiceMap.get (m : ModuleServiceMap) (e : Event) : Option Module :=
  List.lookup e m.entries

/-- BoxStreamCallback from stream.rs: the one-shot delivery callback.  Its only
observable behaviour is the argument pair it is invoked with, which the
embedding records in CallOutcome.callbackCalls. -/
def BoxStreamCallback (T : Type) : Type := T → EventResponse → Unit

/-- StreamData from stream.rs: the Envelope of one unit of work. -/
structure StreamData (T : Type) where
  config : T
  request : Option EventRequest
  callback : BoxStreamCallback T

/-- StreamData::new from stream.rs: stores the three fields without validation. -/
def StreamData.new {T : Type} (config : T) (request : Option EventRequest)
    (callback : BoxStreamCallback T) : StreamData T :=
  { config := config, request := request, callback := callback }

/-- Observable outcome of one dispatch task (CommandStreamService::call):
the callback invocations it performed in order, the errors it logged via
log::error, the value the task's future resolved to, and the Envelope's
state after the task ran. -/
structure CallOutcome (T : Type) where
  callbackCalls : List (T × EventResponse)
  errors : List SystemError
  retVal : Except SystemError Unit
  dataAfter : StreamData T

/-- The message stream.rs formats when no module handles the request. -/
def unroutableMsg (request : EventRequest) : String :=
  "Can not find the module to handle the request:" ++ reprStr request

/-- The error stream.rs produces for an unroutable request. -/
def unroutableErr (request : EventRequest) : SystemError :=
  InternalError.new (unroutableMsg request)

/-- The inner result closure of CommandStreamService::call from stream.rs:
look the event-kind up in the map; if found, build a handler from the
request-id and invoke it on the request; otherwise fail with the
unroutable InternalError. -/
def dispatchResult (module_map : ModuleServiceMap) (request : EventRequest) :
    Except SystemError EventResponse :=
  match module_map.get request.get_event with
  | some m =>
      match m.new_service request.get_id with
      | Except.ok service => service request
      | Except.error e => Except.error e
  | none => Except.error (unroutableErr request)

/-- CommandStreamService from stream.rs: holds a clone of the module map. -/
structure CommandStreamService where
  module_map : ModuleServiceMap

/-- CommandStreamService::call from stream.rs.  Takes the request out of the
Envelope (unwrap of None is a panic, modelled as none); on dispatch success
invokes the callback once with (config, response) and logs nothing; on
dispatch failure logs the error once and invokes no callback; in both
cases the future resolves to Ok(()). -/
def CommandStreamService.call {T : Type} (svc : CommandStreamService)
    (data : StreamData T) : Option (CallOutcome T) :=
  match data.request with
  | none => none
  | some request =>
      let dataAfter : StreamData T := { data with request := none }
      match dispatchResult svc.module_map request with
      | Except.ok resp =>
          some { callbackCalls := [(data.config, resp)], errors := [],
                 retVal := Except.ok (), dataAfter := dataAfter }
      | Except.error e =>
          some { callbackCalls := [], errors := [e],
                 retVal := Except.ok (), dataAfter := dataAfter }

/-- CommandStream from stream.rs: the Dispatch Loop state.  The unbounded
channel is modelled by the list of pending Envelopes plus a closed flag
(all senders dropped). -/
structure CommandStream (T : Type) where
  module_map : Option ModuleServiceMap
  pending : List (StreamData T)
  closed : Bool

/-- CommandStream::new from stream.rs: no routing table, empty channel. -/
def CommandStream.new (T : Type) : CommandStream T :=
  { module_map := none, pending := [], closed := false }

/-- CommandStream::send from stream.rs: let _ = self.data_tx.send(data);
enqueues when the channel is open, silently drops the Envelope when the
channel is closed, and never reports either way. -/
def CommandStream.send {T : Type} (s : CommandStream T) (data : StreamData T) :
    CommandStream T :=
  if s.closed then s else { s with pending := s.pending ++ [data] }

/-- CommandStream::module_service_map from stream.rs: attaches the routing table. -/
def CommandStream.module_service_map {T : Type} (s : CommandStream T)
    (map : ModuleServiceMap) : CommandStream T :=
  { s with module_map := some map }

/-- CommandStream::new_service from stream.rs: unwraps the optional module map
(the unwrap of None is a panic, modelled as none) and yields a
CommandStreamService holding a clone of it. -/
def CommandStream.new_service {T : Type} (s : CommandStream T) :
    Option CommandStreamService :=
  match s.module_map with
  | none => none
  | some m => some { module_map := m }

/-- Poll result of the Dispatch Loop future: Ready (with unit output) or Pending. -/
inductive PollOut where
  | ready
  | pending
  deriving DecidableEq, Repr

/-- Observable outcome of one poll of the Dispatch Loop: the poll result,
the outcomes of the dispatch tasks it spawned (one per drained Envelope,
none marking a task that panicked), and the loop state afterwards. -/
structure PollRun (T : Type) where
  result : PollOut
  tasks : List (Option (CallOutcome T))
  post : CommandStream T

/-- Future::poll for CommandStream from stream.rs: drain the channel, spawning
one dispatch task per Envelope (each task is built by new_service, whose
unwrap of a missing module map panics on the first dequeued Envelope,
modelled as none); once the channel is empty, return Ready () if it is
closed and Pending otherwise. -/
def CommandStream.poll {T : Type} (s : CommandStream T) : Option (PollRun T) :=
  match s.pending with
  | [] =>
      some { result := if s.closed then PollOut.ready else PollOut.pending,
             tasks := [], post := { s with pending := [] } }
  | _ :: _ =>
      match s.new_service with
      | none => none
      | some svc =>
          some { result := if s.closed then PollOut.ready else PollOut.pending,
                 tasks := s.pending.map (fun d => svc.call d),
                 post := { s with pending := [] } }

/-- Producer-side operations on the Dispatch Loop state (submissions and
dropping the last sender); the routing table is attached once beforehand. -/
inductive StreamOp (T : Type) where
  | send (data : StreamData T)
  | close

/-- Apply one producer operation to the loop state. -/
def CommandStream.applyOp {T : Type} (s : CommandStream T) :
    StreamOp T → CommandStream T
  | StreamOp.send d => s.send d
  | StreamOp.close => { s with closed := true }

/-- Apply a sequence of producer operations to the loop state. -/
def CommandStream.applyOps {T : Type} (s : CommandStream T)
    (ops : List (StreamOp T)) : CommandStream T :=
  ops.foldl CommandStream.applyOp s

/-! Concrete sample instances used by the witnesses. -/

/-- A module that echoes the request payload back as the response. -/
def echoModule : Module :=
  { new_service := fun _ => Except.ok (fun r => Except.ok { payload := r.payload }) }

/-- A routing table registering echoModule under the kind echo. -/
def sampleMap : ModuleServiceMap := { entries := [("echo", echoModule)] }

/-- A routable sample request. -/
def sampleReq : EventRequest := { event := "echo", id := "r1", payload := "hi" }

/-- A sample request whose event-kind is absent from sampleMap. -/
def missingReq : EventRequest := { event := "missing", id := "r2", payload := "ho" }

/-- A callback that discards its arguments. -/
def nopCallback : BoxStreamCallback Nat := fun _ _ => ()

/-- A sample Envelope carrying sampleReq. -/
def sampleData : StreamData Nat := StreamData.new 42 (some sampleReq) nopCallback

/-- A sample Envelope carrying the unroutable missingReq. -/
def missingData : StreamData Nat := StreamData.new 7 (some missingReq) nopCallback

/-- The dispatch service over sampleMap. -/
def sampleSvc : CommandStreamService := { module_map := sampleMap }

/-- The outcome of dispatching sampleData through sampleMap. -/
def sampleOutcome : CallOutcome Nat :=
  { callbackCalls := [(42, { payload := "hi" })], errors := [],
    retVal := Except.ok (), dataAfter := { sampleData with request := none } }

/-- The outcome of dispatching missingData through sampleMap. -/
def missingOutcome : CallOutcome Nat :=
  { callbackCalls := [], errors := [unroutableErr missingReq],
    retVal := Except.ok (), dataAfter := { missingData with request := none } }

/-- A loop state with no routing table attached but one pending Envelope. -/
def unattachedStream : CommandStream Nat :=
  { module_map := none, pending := [sampleData], closed := false }

/-- A loop state whose channel is closed and drained. -/
def drainedStream : CommandStream Nat :=
  { module_map := some sampleMap, pending := [], closed := true }

/-- A loop state with the table attached and one pending Envelope. -/
def loadedStream : CommandStream Nat :=
  { module_map := some sampleMap, pending := [sampleData], closed := false }

/-! Theorems. -/

/-- Helper: the inner result closure succeeds exactly when lookup, handler
construction and handler invocation all succeed, with the respective values. -/
theorem dispatchResult_ok_iff (m : ModuleServiceMap) (r : EventRequest)
    (resp : EventResponse) :
    dispatchResult m r = Except.ok resp ↔
      ∃ md service, m.get r.get_event = some md ∧
        md.new_service r.get_id = Except.ok service ∧
        service r = Except.ok resp := by
  unfold dispatchResult
  cases hget : m.get r.get_event with
  | none => simp [hget]
  | some md =>
    cases hns : md.new_service r.get_id with
    | error e => simp [hns]
    | ok service =>
      simp only [hget, hns]
      constructor
      · intro h
        exact ⟨md, service, rfl, hns, h⟩
      · rintro ⟨md2, service2, hmd, hns2, hserv⟩
        obtain rfl : md = md2 := by injection hmd
        rw [hns] at hns2
        obtain rfl : service = service2 := by injection hns2
        exact hserv

/-- C1: for every Envelope processed by a dispatch task, the callback fires
0 or 1 times; it fires exactly once if and only if routing lookup, handler
construction and handler invocation all succeed; and when it fires it
receives exactly the pair (context, response) with the Envelope's original
context value. -/
theorem callback_fires_iff_success {T : Type} (svc : CommandStreamService)
    (data : StreamData T) (r : EventRequest) (out : CallOutcome T)
    (hreq : data.request = some r)
    (hcall : svc.call data = some out) :
    out.callbackCalls.length ≤ 1 ∧
    (out.callbackCalls.length = 1 ↔
      ∃ md service resp, svc.module_map.get r.get_event = some md ∧
        md.new_service r.get_id = Except.ok service ∧
        service r = Except.ok resp) ∧
    (∀ c resp, (c, resp) ∈ out.callbackCalls →
      c = data.config ∧ dispatchResult svc.module_map r = Except.ok resp) := by
  simp only [CommandStreamService.call, hreq] at hcall
  cases hdr : dispatchResult svc.module_map r with
  | ok resp =>
    simp only [hdr, Option.some.injEq] at hcall
    subst hcall
    refine ⟨by simp, ?_, ?_⟩
    · simp only [List.length_singleton, eq_self_iff_true, true_iff]
      obtain ⟨md, service, hmd, hns, hserv⟩ :=
        (dispatchResult_ok_iff svc.module_map r resp).mp hdr
      exact ⟨md, service, resp, hmd, hns, hserv⟩
    · intro c resp2 hmem
      simp only [List.mem_singleton, Prod.mk.injEq] at hmem
      obtain ⟨rfl, rfl⟩ := hmem
      exact ⟨rfl, rfl⟩
  | error e =>
    simp only [hdr, Option.some.injEq] at hcall
    subst hcall
    refine ⟨by simp, ?_, ?_⟩
    · simp only [List.length_nil]
      constructor
      · intro h
        exact absurd h (by simp)
      · rintro ⟨md, service, resp, hmd, hns, hserv⟩
        have : dispatchResult svc.module_map r = Except.ok resp :=
          (dispatchResult_ok_iff svc.module_map r resp).mpr ⟨md, service, hmd, hns, hserv⟩
        rw [hdr] at this
        exact absurd this (by simp)
    · intro c resp2 hmem
      exact absurd hmem (by simp)

/-- Witness for C1 at concrete input: the echo module handles sampleReq
and the callback fires once with the original context and response. -/
theorem callback_fires_iff_success_witness :
    sampleData.request = some sampleReq ∧
    sampleSvc.call sampleData = some sampleOutcome ∧
    (sampleOutcome.callbackCalls.length ≤ 1 ∧
     (sampleOutcome.callbackCalls.length = 1 ↔
       ∃ md service resp, sampleSvc.module_map.get sampleReq.get_event = some md ∧
         md.new_service sampleReq.get_id = Except.ok service ∧
         service sampleReq = Except.ok resp) ∧
     (∀ c resp, (c, resp) ∈ sampleOutcome.callbackCalls →
       c = sampleData.config ∧
       dispatchResult sampleSvc.module_map sampleReq = Except.ok resp)) :=
  ⟨rfl, rfl, callback_fires_iff_success sampleSvc sampleData sampleReq sampleOutcome rfl rfl⟩

/-- C2: for a request whose event-kind is absent from the routing table, the
dispatch task invokes no callback and logs the unroutable InternalError
exactly once. -/
theorem unroutable_no_callback {T : Type} (svc : CommandStreamService)
    (data : StreamData T) (r : EventRequest) (out : CallOutcome T)
    (hreq : data.request = some r)
    (habsent : svc.module_map.get r.get_event = none)
    (hcall : svc.call data = some out) :
    out.callbackCalls = [] ∧ out.errors = [unroutableErr r] := by
  simp only [CommandStreamService.call, hreq] at hcall
  have hdr : dispatchResult svc.module_map r = Except.error (unroutableErr r) := by
    unfold dispatchResult
    rw [habsent]
  simp only [hdr, Option.some.injEq] at hcall
  subst hcall
  exact ⟨rfl, rfl⟩

/-- Witness for C2 at concrete input: missingReq is unroutable in sampleMap,
so no callback fires and exactly one unroutable error is logged. -/
theorem unroutable_no_callback_witness :
    missingData.request = some missingReq ∧
    sampleSvc.module_map.get missingReq.get_event = none ∧
    sampleSvc.call missingData = some missingOutcome ∧
    (missingOutcome.callbackCalls = [] ∧
     missingOutcome.errors = [unroutableErr missingReq]) :=
  ⟨rfl, rfl, rfl,
   unroutable_no_callback sampleSvc missingData missingReq missingOutcome rfl rfl rfl⟩

/-- C3: for a request whose event-kind is registered, dispatch resolution is
exactly the registered module built with the request-id as configuration,
whose handler is then invoked on that same request. -/
theorem routing_correctness (m : ModuleServiceMap) (r : EventRequest) (md : Module)
    (hfound : m.get r.get_event = some md) :
    dispatchResult m r = (md.new_service r.get_id).bind (fun service => service r) := by
  cases hns : md.new_service r.get_id with
  | ok service => simp [dispatchResult, hfound, hns, Except.bind]
  | error e => simp [dispatchResult, hfound, hns, Except.bind]

/-- Witness for C3 at concrete input: sampleReq routes to echoModule, which is
built from the request-id and applied to sampleReq. -/
theorem routing_correctness_witness :
    sampleMap.get sampleReq.get_event = some echoModule ∧
    dispatchResult sampleMap sampleReq =
      (echoModule.new_service sampleReq.get_id).bind (fun service => service sampleReq) :=
  ⟨rfl, routing_correctness sampleMap sampleReq echoModule rfl⟩

/-- C4 counterexample: driving the Dispatch Loop before a routing table is
attached is not rejected at construction or start time with a defined
ConfigurationError.  A freshly constructed loop polls to Pending without
any error, and once an Envelope is pending the poll panics on the unwrap
of the absent map (modelled as none), producing no defined error value. -/
theorem poll_unattached_no_config_error :
    (CommandStream.new Nat).poll =
      some { result := PollOut.pending, tasks := [], post := CommandStream.new Nat } ∧
    unattachedStream.poll = none := by
  exact ⟨rfl, rfl⟩

/-- C4 amended: polling the Dispatch Loop before a routing table is attached
suspends or terminates normally while the channel is empty, and panics
(undefined outcome, modelled as none) as soon as an Envelope is dequeued;
no defined ConfigurationError is produced and nothing is rejected at
construction or start time. -/
theorem poll_unattached_behaviour {T : Type} (s : CommandStream T)
    (hmap : s.module_map = none) :
    (s.pending = [] →
      s.poll = some { result := if s.closed then PollOut.ready else PollOut.pending,
                      tasks := [], post := s }) ∧
    (s.pending ≠ [] → s.poll = none) := by
  constructor
  · intro hempty
    unfold CommandStream.poll
    rw [hempty]
    cases s with
    | mk mm p c => simp_all
  · intro hne
    unfold CommandStream.poll
    cases hp : s.pending with
    | nil => exact absurd hp hne
    | cons d rest =>
      unfold CommandStream.new_service
      rw [hmap]

/-- Witness for C4 amended at concrete input: the unattached loop with one
pending Envelope panics when polled. -/
theorem poll_unattached_behaviour_witness :
    unattachedStream.module_map = none ∧
    unattachedStream.pending ≠ [] ∧
    unattachedStream.poll = none :=
  ⟨rfl, by simp [unattachedStream],
   (poll_unattached_behaviour unattachedStream rfl).2 (by simp [unattachedStream])⟩

/-- C5: every per-request error is contained in its dispatch task: whenever
the task runs without panicking it resolves to Ok (()) regardless of the
dispatch result, a failed dispatch is logged exactly once with no callback,
and the Dispatch Loop's poll result never depends on task outcomes (it is
determined by the channel state alone). -/
theorem errors_contained {T : Type} (svc : CommandStreamService)
    (data : StreamData T) (r : EventRequest) (out : CallOutcome T)
    (hreq : data.request = some r)
    (hcall : svc.call data = some out) :
    out.retVal = Except.ok () ∧
    (∀ e, dispatchResult svc.module_map r = Except.error e →
      out.errors = [e] ∧ out.callbackCalls = []) ∧
    (∀ s : CommandStream T, s.module_map = some svc.module_map →
      ∃ run, s.poll = some run ∧
        run.result = (if s.closed then PollOut.ready else PollOut.pending)) := by
  simp only [CommandStreamService.call, hreq] at hcall
  have hloop : ∀ s : CommandStream T, s.module_map = some svc.module_map →
      ∃ run, s.poll = some run ∧
        run.result = (if s.closed then PollOut.ready else PollOut.pending) := by
    intro s hs
    unfold CommandStream.poll
    cases s.pending with
    | nil => exact ⟨_, rfl, rfl⟩
    | cons d rest =>
      unfold CommandStream.new_service
      rw [hs]
      exact ⟨_, rfl, rfl⟩
  cases hdr : dispatchResult svc.module_map r with
  | ok resp =>
    simp only [hdr, Option.some.injEq] at hcall
    subst hcall
    refine ⟨rfl, ?_, hloop⟩
    intro e he
    exact absurd he (by simp)
  | error e =>
    simp only [hdr, Option.some.injEq] at hcall
    subst hcall
    refine ⟨rfl, ?_, hloop⟩
    intro e2 he
    obtain rfl : e = e2 := by injection he
    exact ⟨rfl, rfl⟩

/-- Witness for C5 at concrete input: the unroutable missingData is logged,
its task resolves to Ok (()), and a loaded loop still polls to Pending. -/
theorem errors_contained_witness :
    missingData.request = some missingReq ∧
    sampleSvc.call missingData = some missingOutcome ∧
    (missingOutcome.retVal = Except.ok () ∧
     (∀ e, dispatchResult sampleSvc.module_map missingReq = Except.error e →
       missingOutcome.errors = [e] ∧ missingOutcome.callbackCalls = []) ∧
     (∀ s : CommandStream Nat, s.module_map = some sampleSvc.module_map →
       ∃ run, s.poll = some run ∧
         run.result = (if s.closed then PollOut.ready else PollOut.pending))) :=
  ⟨rfl, rfl, errors_contained sampleSvc missingData missingReq missingOutcome rfl rfl⟩

/-- C6: once the channel is closed and no Envelopes are pending, polling the
Dispatch Loop completes with Ready (the unit output), spawning nothing —
graceful termination with no error channel at all. -/
theorem graceful_shutdown {T : Type} (s : CommandStream T)
    (hclosed : s.closed = true) (hempty : s.pending = []) :
    s.poll = some { result := PollOut.ready, tasks := [], post := s } := by
  unfold CommandStream.poll
  rw [hempty, hclosed]
  cases s with
  | mk mm p c => simp_all

/-- Witness for C6 at concrete input: the drained closed loop polls to Ready. -/
theorem graceful_shutdown_witness :
    drainedStream.closed = true ∧
    drainedStream.pending = [] ∧
    drainedStream.poll =
      some { result := PollOut.ready, tasks := [], post := drainedStream } :=
  ⟨rfl, rfl, graceful_shutdown drainedStream rfl rfl⟩

/-- C7: when every pending Envelope still holds its request (as producers
construct them), a poll spawns one task per Envelope, no task observes an
already-empty request (none panics), and each task takes the request out
exactly once, leaving the Envelope's request field None. -/
theorem single_consumption {T : Type} (m : ModuleServiceMap) (s : CommandStream T)
    (hmap : s.module_map = some m)
    (hall : ∀ d ∈ s.pending, d.request ≠ none) :
    ∃ run, s.poll = some run ∧
      run.tasks.length = s.pending.length ∧
      ∀ t ∈ run.tasks, ∃ out, t = some out ∧ out.dataAfter.request = none := by
  unfold CommandStream.poll
  cases hp : s.pending with
  | nil => exact ⟨_, rfl, by simp, by simp⟩
  | cons d rest =>
    unfold CommandStream.new_service
    rw [hmap]
    refine ⟨_, rfl, by simp, ?_⟩
    intro t ht
    simp only [List.mem_map] at ht
    obtain ⟨d2, hd2, rfl⟩ := ht
    have hd2p : d2 ∈ s.pending := by rw [hp]; exact hd2
    have hsome := hall d2 hd2p
    cases hreq : d2.request with
    | none => exact absurd hreq hsome
    | some r =>
      simp only [CommandStreamService.call, hreq]
      cases dispatchResult m r with
      | ok resp => exact ⟨_, rfl, rfl⟩
      | error e => exact ⟨_, rfl, rfl⟩

/-- Witness for C7 at concrete input: the loaded loop dispatches its one
Envelope, whose request is consumed exactly once. -/
theorem single_consumption_witness :
    loadedStream.module_map = some sampleMap ∧
    (∀ d ∈ loadedStream.pending, d.request ≠ none) ∧
    (∃ run, loadedStream.poll = some run ∧
      run.tasks.length = loadedStream.pending.length ∧
      ∀ t ∈ run.tasks, ∃ out, t = some out ∧ out.dataAfter.request = none) :=
  ⟨rfl, by simp [loadedStream, sampleData, StreamData.new],
   single_consumption sampleMap loadedStream rfl
     (by simp [loadedStream, sampleData, StreamData.new])⟩

/-- C8: send returns nothing and signals nothing: on a closed channel the
Envelope is silently dropped (the state is unchanged), and on an open
channel it is enqueued — in neither case is any error or backpressure
reported to the producer. -/
theorem send_fire_and_forget {T : Type} (s : CommandStream T) (data : StreamData T) :
    (s.closed = true → s.send data = s) ∧
    (s.closed = false → s.send data = { s with pending := s.pending ++ [data] }) := by
  constructor
  · intro hclosed
    unfold CommandStream.send
    rw [hclosed]
    rfl
  · intro hopen
    unfold CommandStream.send
    rw [hopen]
    rfl

/-- Witness for C8 at concrete input: sending into the closed drained loop
silently drops the Envelope, leaving the state unchanged. -/
theorem send_fire_and_forget_witness :
    drainedStream.closed = true ∧
    drainedStream.send sampleData = drainedStream :=
  ⟨rfl, (send_fire_and_forget drainedStream sampleData).1 rfl⟩

/-- C9: StreamData.new stores request = none without validation; a dispatch
task handed such an Envelope panics on the unwrap of the taken request
before any routing occurs (for every module map); and the task runs
without panicking exactly when the Envelope's request is present. -/
theorem call_requires_some_request {T : Type} (svc : CommandStreamService)
    (c : T) (cb : BoxStreamCallback T) :
    (StreamData.new c none cb).request = none ∧
    svc.call (StreamData.new c none cb) = none ∧
    (∀ data : StreamData T, (svc.call data).isSome ↔ data.request.isSome) := by
  refine ⟨rfl, rfl, ?_⟩
  intro data
  unfold CommandStreamService.call
  cases hreq : data.request with
  | none => simp
  | some r =>
    cases hdr : dispatchResult svc.module_map r with
    | ok resp => simp [hdr]
    | error e => simp [hdr]

/-- Witness for C9 at concrete input: an Envelope built with no request is
stored as such and panics the dispatch task over sampleMap. -/
theorem call_requires_some_request_witness :
    (StreamData.new (42 : Nat) none nopCallback).request = none ∧
    sampleSvc.call (StreamData.new (42 : Nat) none nopCallback) = none ∧
    (∀ data : StreamData Nat, (sampleSvc.call data).isSome ↔ data.request.isSome) :=
  call_requires_some_request sampleSvc 42 nopCallback

/-- C10: no dispatch operation mutates the routing table: after attaching a
map and applying any sequence of producer operations, the loop still holds
exactly that map, and a poll hands every spawned task precisely that map
(its tasks are the pending Envelopes dispatched through it), leaving the
map attached afterwards. -/
theorem routing_table_immutable {T : Type} (m : ModuleServiceMap)
    (s0 : CommandStream T) (ops : List (StreamOp T)) (s : CommandStream T)
    (hs : s = (s0.module_service_map m).applyOps ops) :
    s.module_map = some m ∧
    ∃ run, s.poll = some run ∧
      run.tasks = s.pending.map
        (fun d => CommandStreamService.call { module_map := m } d) ∧
      run.post.module_map = some m := by
  have hpres : ∀ (t : CommandStream T) (l : List (StreamOp T)),
      (t.applyOps l).module_map = t.module_map := by
    intro t l
    induction l generalizing t with
    | nil => rfl
    | cons op rest ih =>
      have hstep : (t.applyOp op).module_map = t.module_map := by
        cases op with
        | send d =>
          unfold CommandStream.applyOp CommandStream.send
          cases t.closed <;> simp
        | close => rfl
      calc (t.applyOps (op :: rest)).module_map
          = ((t.applyOp op).applyOps rest).module_map := rfl
        _ = (t.applyOp op).module_map := ih (t.applyOp op)
        _ = t.module_map := hstep
  have hmap : s.module_map = some m := by
    rw [hs, hpres]
    rfl
  refine ⟨hmap, ?_⟩
  unfold CommandStream.poll
  cases hp : s.pending with
  | nil => exact ⟨_, rfl, by simp, by simp [hmap]⟩
  | cons d rest =>
    unfold CommandStream.new_service
    rw [hmap]
    exact ⟨_, rfl, rfl, rfl⟩

/-- Witness for C10 at concrete input: attach sampleMap, submit sampleData and
drop the senders; the loop still holds sampleMap and dispatches the
Envelope through it. -/
theorem routing_table_immutable_witness :
    ((CommandStream.new Nat).module_service_map sampleMap).applyOps
        [StreamOp.send sampleData, StreamOp.close] =
      ((CommandStream.new Nat).module_service_map sampleMap).applyOps
        [StreamOp.send sampleData, StreamOp.close] ∧
    ((((CommandStream.new Nat).module_service_map sampleMap).applyOps
        [StreamOp.send sampleData, StreamOp.close]).module_map = some sampleMap ∧
     ∃ run, (((CommandStream.new Nat).module_service_map sampleMap).applyOps
        [StreamOp.send sampleData, StreamOp.close]).poll = some run ∧
       run.tasks = (((CommandStream.new Nat).module_service_map sampleMap).applyOps
        [StreamOp.send sampleData, StreamOp.close]).pending.map
          (fun d => CommandStreamService.call { module_map := sampleMap } d) ∧
       run.post.module_map = some sampleMap) :=
  ⟨rfl, routing_table_immutable sampleMap (CommandStream.new Nat)
    [StreamOp.send sampleData, StreamOp.close] _ rfl⟩

end FlowySys
